import Mathlib

/-!
Shallow embedding of the progeny-core process/port lifecycle manager
(src/progeny_core/spinner.py and src/progeny_core/cli/cli_serve.py).

Python runtime conventions used throughout:
* Python exceptions are modelled with Except; the error value names the
  Python exception class that would be raised.
* Python truthiness (0, "", None, False, empty containers are falsy) is
  modelled explicitly by the pyTruthy functions.
* A Python set of ports is modelled as a duplicate-free List Int; set.remove
  is List.erase plus an explicit KeyError on a missing element.
* The sqlite3 Process table is modelled as a List Row together with a tiny
  evaluator for the WHERE fragments that conds_maker produces: a column name
  outside the table schema is an OperationalError (raised when the statement
  is prepared), a placeholder/parameter count mismatch is a ProgrammingError,
  and the UNIQUE / PRIMARY KEY constraints make a conflicting INSERT fail
  with an IntegrityError that inserts nothing.
-/

namespace ProgenyCore

/-- Python exception classes raised by the code under analysis. -/
inductive Err where
  | integrityError
  | operationalError
  | programmingError
  | assertionError
  | keyError
  | valueError
  | runtimeNoPorts
  | invalidURL
  | connectionError
deriving Repr, DecidableEq

/-- A Python value as it appears in selector kwargs, recipe kwargs and
configuration dictionaries: an int, a string, a bool, or None. -/
inductive Value where
  | i (n : Int)
  | s (x : String)
  | b (x : Bool)
  | vnone
deriving Repr, DecidableEq

/-- Python truthiness of a Value: 0, the empty string, False and None are
falsy; everything else is truthy. -/
def pyTruthy : Value → Bool
  | .i n => n != 0
  | .s x => x != ""
  | .b x => x
  | .vnone => false

/-- str(v) as used by f-string formatting in parse_command. -/
def pyValStr : Value → String
  | .i n => toString n
  | .s x => x
  | .b true => "True"
  | .b false => "False"
  | .vnone => "None"

/-- A Python range object with step 1: range(start, stop). -/
structure PyRange where
  start : Int
  stop : Int
deriving Repr, DecidableEq

/-- len(range(start, stop)) in Python: max 0 (stop - start). -/
def pyRangeLen (r : PyRange) : Nat := (r.stop - r.start).toNat

/-- list(range(start, stop)): the ascending enumeration of the range. -/
def rangeList (r : PyRange) : List Int :=
  (List.range (pyRangeLen r)).map (fun i => r.start + (i : Int))

/-- The shapes of argument accepted by PortManager.validate_port_range:
a tuple or list of ints, an actual range object, or any other (scalar)
value such as a single int. -/
inductive PortRangeInput where
  | seq (xs : List Int)
  | rng (r : PyRange)
  | intValue (x : Int)
deriving Repr, DecidableEq

/-- PortManager.validate_port_range.  A 2-element tuple/list (a, b) becomes
range(a, b) with no check on the start; a range object must have start > 0;
in every case the resulting range must contain more than one port.  Any
failed assert raises AssertionError. -/
def validate_port_range : PortRangeInput → Except Err PyRange
  | .seq xs =>
    match xs with
    | [a, b] =>
      let r : PyRange := ⟨a, b⟩
      if pyRangeLen r > 1 then .ok r else .error .assertionError
    | _ => .error .assertionError
  | .rng r =>
    if r.start > 0 then
      if pyRangeLen r > 1 then .ok r else .error .assertionError
    else .error .assertionError
  | .intValue _ => .error .assertionError

/-- PortManager state: the validated range and the set of available ports
(a Python set, modelled as a duplicate-free list). -/
structure PMState where
  port_range : PyRange
  available_ports : List Int
deriving Repr, DecidableEq

/-- PortManager.update_available_ports: recompute the available set as the
ports of the range that the live probe reports as free.  The probe
(is_port_in_use) is an environment parameter occ. -/
def update_available_ports (occ : Int → Bool) (pm : PMState) : PMState :=
  ⟨pm.port_range, (rangeList pm.port_range).filter (fun p => !occ p)⟩

/-- The scan loop of PortManager.allocate_port over the remaining ports of
the range: skip live-probed ports; at the first free port remove it from the
available set and return it (set.remove of an absent element raises
KeyError); an exhausted range raises RuntimeError (no ports available). -/
def allocGo (occ : Int → Bool) (avail : List Int) : List Int → Except Err (Int × List Int)
  | [] => .error .runtimeNoPorts
  | p :: rest =>
    if occ p then allocGo occ avail rest
    else if p ∈ avail then .ok (p, avail.erase p)
    else .error .keyError

/-- PortManager.allocate_port. -/
def allocate_port (occ : Int → Bool) (pm : PMState) : Except Err (Int × PMState) :=
  (allocGo occ pm.available_ports (rangeList pm.port_range)).map
    (fun pa => (pa.1, ⟨pm.port_range, pa.2⟩))

/-- One row of the sqlite Process table:
identifier text PRIMARY KEY, session_name text, port int NOT NULL UNIQUE,
pid int NOT NULL UNIQUE, expiry_timestamp int NOT NULL. -/
structure Row where
  identifier : String
  session_name : Option String
  port : Int
  pid : Int
  expiry_timestamp : Int
deriving Repr, DecidableEq

/-- ProcessRegistry state: the persisted Process table plus the PortManager
instance the registry notifies. -/
structure RegState where
  table : List Row
  pm : PMState
deriving Repr, DecidableEq

/-- The columns of the Process table. -/
def tableColumns : List String :=
  ["identifier", "session_name", "port", "pid", "expiry_timestamp"]

/-- Value of a column of a row, or none when the column does not exist in
the table schema. -/
def colValue (r : Row) : String → Option Value
  | "identifier" => some (.s r.identifier)
  | "session_name" =>
    match r.session_name with
    | some x => some (.s x)
    | none => some .vnone
  | "port" => some (.i r.port)
  | "pid" => some (.i r.pid)
  | "expiry_timestamp" => some (.i r.expiry_timestamp)
  | _ => none

/-- sqlite equality comparison between a column value and a parameter:
values of different storage classes never compare equal, NULL compares
equal to nothing. -/
def valEq : Value → Value → Bool
  | .i a, .i b => a == b
  | .s a, .s b => a == b
  | _, _ => false

/-- sqlite greater-than comparison restricted to the integer/integer case
(the only case the embedded statements could reach). -/
def valGt : Value → Value → Bool
  | .i a, .i b => a > b
  | _, _ => false

/-- The conjunction/disjunction operator of conds_maker; the code asserts
the operator is one of OR and AND. -/
inductive Op where
  | OR
  | AND
deriving Repr, DecidableEq

/-- One condition atom produced by conds_maker: the column name it quotes
and whether it is the greater-than form (older_than) or the equality form. -/
structure Cond where
  col : String
  gt : Bool
deriving Repr, DecidableEq

/-- ProcessRegistry.conds_maker.  For each kwarg whose value is truthy:
older_than contributes the atom "older_than > ?", the four known column
names contribute "col = ?", and any other key contributes no atom - but its
value is still appended to the parameter tuple (the append sits outside the
inner if/elif in the source). Falsy values are dropped entirely. -/
def conds_maker (op : Op) : List (String × Value) → List Cond × List Value
  | [] => ([], [])
  | (k, v) :: rest =>
    let acc := conds_maker op rest
    if pyTruthy v then
      let c : List Cond :=
        if k = "older_than" then [⟨k, true⟩]
        else if k ∈ ["identifier", "session_name", "pid", "port"] then [⟨k, false⟩]
        else []
      (c ++ acc.1, v :: acc.2)
    else acc

/-- The warning message ProcessRegistry.is_safe logs. -/
def warnMsg : String :=
  "All records selected (no conditions were set), " ++
  "but the unsafe flag is False: not selecting or deleting anything"

/-- ProcessRegistry.is_safe: true when some condition was built, or when the
caller explicitly opted into the unsafe full-table operation; otherwise
false, logging a warning (returned as the second component). -/
def is_safe (conds : List Cond) ( allow_unsafe : Bool) : Bool × List String :=
  if conds ≠ [] then (true, [])
  else if allow_unsafe then (true, [])
  else (false, [warnMsg])

/-- Does a row satisfy the WHERE clause?  Only evaluated on statements that
compiled, i.e. whose columns all exist.  An unknown column evaluates to a
non-match here but is unreachable after runWhere's checks. -/
def rowMatches (op : Op) (conds : List Cond) (values : List Value) (r : Row) : Bool :=
  let tests := (conds.zip values).map (fun cv =>
    match colValue r cv.1.col with
    | some v => if cv.1.gt then valGt v cv.2 else valEq v cv.2
    | none => false)
  match op with
  | .OR => tests.any id
  | .AND => tests.all id

/-- Execute "SELECT * FROM Process {conds}" with the given parameters.
Preparing the statement fails with OperationalError when a quoted column is
not in the table schema; binding fails with ProgrammingError when the
parameter count differs from the placeholder count; an empty condition list
means no WHERE clause, so every row is returned. -/
def runSelect (op : Op) (conds : List Cond) (values : List Value)
    (table : List Row) : Except Err (List Row) :=
  if conds.any (fun c => !(tableColumns.contains c.col)) then .error .operationalError
  else if conds.length ≠ values.length then .error .programmingError
  else if conds.isEmpty then .ok table
  else .ok (table.filter (rowMatches op conds values))

/-- Execute "DELETE FROM Process {conds}": same failure modes as runSelect;
the surviving table keeps exactly the non-matching rows (all rows are
deleted when there is no WHERE clause). -/
def runDelete (op : Op) (conds : List Cond) (values : List Value)
    (table : List Row) : Except Err (List Row) :=
  if conds.any (fun c => !(tableColumns.contains c.col)) then .error .operationalError
  else if conds.length ≠ values.length then .error .programmingError
  else if conds.isEmpty then .ok []
  else .ok (table.filter (fun r => !rowMatches op conds values r))

/-- ProcessRegistry.find_process_from_registry: build the conditions (the
default operator is OR), refuse an unguarded full-table selection, then run
the SELECT.  Returns the selected rows and the warnings logged. -/
def find_process_from_registry ( allow_unsafe : Bool)
    (kwargs : List (String × Value)) (st : RegState) :
    Except Err (List Row × List String) :=
  let cv := conds_maker .OR kwargs
  let sw := is_safe cv.1 allow_unsafe
  if !sw.1 then .ok ([], sw.2)
  else (runSelect .OR cv.1 cv.2 st.table).map (fun rows => (rows, sw.2))

/-- ProcessRegistry.delete_process_from_registry: same guard; on the guard
tripping the registry is left untouched. -/
def delete_process_from_registry ( allow_unsafe : Bool)
    (kwargs : List (String × Value)) (st : RegState) :
    Except Err (RegState × List String) :=
  let cv := conds_maker .OR kwargs
  let sw := is_safe cv.1 allow_unsafe
  if !sw.1 then .ok (st, sw.2)
  else (runDelete .OR cv.1 cv.2 st.table).map
    (fun table => (⟨table, st.pm⟩, sw.2))

/-- ProcessRegistry.cleanup_running_processes: find the matching records,
terminate each one's OS process (modelled as the list of pids signalled),
delete the matching records, then ask the PortManager to refresh.  An
exception from the SELECT or DELETE propagates, leaving the state of the
caller unchanged. -/
def cleanup_running_processes (occ : Int → Bool) ( allow_unsafe : Bool)
    (kwargs : List (String × Value)) (st : RegState) :
    Except Err ((List Int × Nat) × RegState) :=
  match find_process_from_registry allow_unsafe kwargs st with
  | .error e => .error e
  | .ok (records, _) =>
    let killed := records.map (·.pid)
    match delete_process_from_registry allow_unsafe kwargs st with
    | .error e => .error e
    | .ok (st2, _) =>
      .ok ((killed, records.length), ⟨st2.table, update_available_ports occ st2.pm⟩)

/-- ProcessRegistry.already_has_instance: a find on the identifier, tested
for non-emptiness. -/
def already_has_instance (identifier : String) (st : RegState) : Except Err Bool :=
  (find_process_from_registry false [("identifier", .s identifier)] st).map
    (fun rw => !rw.1.isEmpty)

/-- The process argument of register_process: either a multiprocessing
Process object (carrying its pid and liveness) or a raw pid int. -/
inductive ProcHandle where
  | mp (pid : Int) (alive : Bool)
  | raw (pid : Int)
deriving Repr, DecidableEq

/-- ProcessRegistry.register_process: a dead Process object fails the
is_alive assert; the INSERT fails with IntegrityError (inserting nothing)
when an existing row already holds the identifier, the port or the pid;
on success the row is appended and the PortManager refreshes. -/
def register_process (occ : Int → Bool) (identifier : String)
    (session_name : Option String) (port : Int) (proc : ProcHandle)
    (expiry_timestamp : Int) (st : RegState) : Except Err RegState :=
  match proc with
  | .mp _ false => .error .assertionError
  | _ =>
    let pid := match proc with
      | .mp p _ => p
      | .raw p => p
    if st.table.any (fun r =>
        r.identifier == identifier || r.port == port || r.pid == pid) then
      .error .integrityError
    else
      .ok ⟨st.table ++ [⟨identifier, session_name, port, pid, expiry_timestamp⟩],
           update_available_ports occ st.pm⟩

/-- Truthiness of an optional positional-argument list (None and [] are
falsy). -/
def argsTruthy : Option (List String) → Bool
  | some (_ :: _) => true
  | _ => false

/-- Truthiness of an optional keyword-argument dict (None and \x7b\x7d are
falsy). -/
def kwTruthy : Option (List (String × Value)) → Bool
  | some (_ :: _) => true
  | _ => false

/-- k.startswith of two dashes, computed on the character list. -/
def startsWithDashes (k : String) : Bool :=
  match k.data with
  | '-' :: '-' :: _ => true
  | _ => false

/-- The keyword-argument rendering loop of ProdigyAdapter.parse_command:
each key gains a leading -- unless it already has one; a bool value (True
or False alike) renders as a bare flag, any other value is appended after a
space. -/
def renderKwargs (acc : String) : List (String × Value) → String
  | [] => acc
  | (k, v) :: rest =>
    let k2 := if startsWithDashes k then k else "--" ++ k
    let v2 := match v with
      | .b _ => ""
      | w => " " ++ pyValStr w
    renderKwargs (acc ++ " " ++ k2 ++ v2) rest

/-- ProdigyAdapter.parse_command.  If the command key is present its value
is returned verbatim, whatever else was passed.  Otherwise a missing recipe
key raises KeyError, a recipe with falsy recipe_args and falsy
recipe_kwargs fails the assert, and otherwise the command line
"recipe arg1 arg2 --k1 v1 ..." is built. -/
def parse_command (command : Option String) (recipe : Option String)
    (recipe_args : Option (List String))
    (recipe_kwargs : Option (List (String × Value))) : Except Err String :=
  match command with
  | some c => .ok c
  | none =>
    match recipe with
    | none => .error .keyError
    | some r =>
      if !(argsTruthy recipe_args || kwTruthy recipe_kwargs) then
        .error .assertionError
      else
        let c1 := r
        let c2 :=
          if argsTruthy recipe_args then
            c1 ++ " " ++ String.intercalate " " (recipe_args.getD [])
          else c1
        if kwTruthy recipe_kwargs then .ok (renderKwargs c2 (recipe_kwargs.getD []))
        else .ok c2

/-- A worker configuration dictionary. -/
def Config := List (String × Value)
deriving Repr, DecidableEq

/-- Python dict merge \x7b**a, **b\x7d: keys of a keep their position but
take b's value when b rebinds them; keys only in b follow in order. -/
def mergeConfig (a b : Config) : Config :=
  (a.map (fun kv =>
    match b.find? (fun kv2 => kv2.1 == kv.1) with
    | some kv2 => kv2
    | none => kv)) ++
  b.filter (fun kv2 => !(a.any (fun kv => kv.1 == kv2.1)))

/-- Truthiness of an optional string (None and "" are falsy). -/
def strTruthy : Option String → Bool
  | some x => x != ""
  | none => false

/-- Truthiness of an optional config dict. -/
def cfgTruthy : Option Config → Bool
  | some (_ :: _) => true
  | _ => false

/-- Progeny.get_command_and_config.  A falsy config is replaced by the empty
dict.  A truthy command requires every recipe-side argument to be None (the
local is_unambiguous checks are identity-with-None tests, so even falsy
non-None values trip the assert); a truthy prebaked name is looked up in the
loaded template map (KeyError when absent) and its config is merged under
the caller's; a truthy recipe is rendered through parse_command; with
nothing truthy the (possibly None) command passes through unchanged. -/
def get_command_and_config (prebakedMap : List (String × (String × Config)))
    (command prebaked recipe : Option String)
    (recipe_args : Option (List String))
    (recipe_kwargs : Option (List (String × Value)))
    (config : Option Config) : Except Err (Option String × Config) :=
  let cfg : Config := if cfgTruthy config then config.getD [] else []
  if strTruthy command then
    if prebaked.isNone && recipe.isNone && recipe_args.isNone && recipe_kwargs.isNone then
      .ok (command, cfg)
    else .error .assertionError
  else if strTruthy prebaked then
    if command.isNone && recipe.isNone && recipe_args.isNone && recipe_kwargs.isNone then
      match prebakedMap.find? (fun kv => kv.1 == prebaked.getD "") with
      | some kv => .ok (some kv.2.1, mergeConfig kv.2.2 cfg)
      | none => .error .keyError
    else .error .assertionError
  else if strTruthy recipe then
    if prebaked.isNone && command.isNone then
      (parse_command none recipe recipe_args recipe_kwargs).map
        (fun c => (some c, cfg))
    else .error .assertionError
  else .ok (command, cfg)

/-- A parsed template document: each field is some value exactly when the
corresponding key is present in the YAML file. -/
structure Doc where
  name : Option String := none
  command : Option String := none
  recipe : Option String := none
  recipe_args : Option (List String) := none
  recipe_kwargs : Option (List (String × Value)) := none
  config : Option Config := none
deriving Repr, DecidableEq

/-- ProdigyAdapter.is_unambiguous: which other keys must be absent (None)
for the named shape. -/
def is_unambiguous (d : Doc) (shape : String) : Bool :=
  if shape = "prebaked" then
    d.command.isNone && d.recipe.isNone && d.recipe_args.isNone && d.recipe_kwargs.isNone
  else if shape = "command" then
    d.recipe.isNone && d.recipe_args.isNone && d.recipe_kwargs.isNone
  else if shape = "recipe" then
    d.command.isNone
  else false

/-- ProdigyAdapter.ensure_unambiguity: prebaked data must carry a name; a
document with a command key must have no recipe-side keys; a document with
a recipe key must have no command key (nothing else about it is checked);
a document with neither key is rejected.  Rejections log a warning and
yield None. -/
def ensure_unambiguity (d : Doc) (is_prebaked_data : Bool) : Option Doc :=
  if is_prebaked_data && d.name.isNone then none
  else if d.command.isSome then
    if is_unambiguous d "command" then some d else none
  else if d.recipe.isSome then
    if is_unambiguous d "recipe" then some d else none
  else none

/-- ProdigyAdapter.parse_prebaked: read the name, pop the config (defaulting
to the empty dict), and render the command via parse_command; an exception
from parse_command propagates uncaught. -/
def parse_prebaked (d : Doc) : Except Err (String × String × Config) :=
  match d.name with
  | none => .error .keyError
  | some n =>
    (parse_command d.command d.recipe d.recipe_args d.recipe_kwargs).map
      (fun c => (n, c, d.config.getD []))

/-- What ProdigyAdapter.try_load_prebaked can meet on disk: a file without
the .yml extension, a file that is not valid YAML, or a parsed document. -/
inductive FileContent where
  | notYml
  | badYaml
  | doc (d : Doc)
deriving Repr, DecidableEq

/-- ProdigyAdapter.try_load_prebaked: skip non-.yml files silently, skip
invalid YAML with a warning, and pass documents through ensure_unambiguity. -/
def try_load_prebaked : FileContent → Option Doc
  | .notYml => none
  | .badYaml => none
  | .doc d => ensure_unambiguity d true

/-- Python dict assignment o[name] = v: overwrite an existing binding in
place, else append. -/
def dictInsert (m : List (String × (String × Config))) (k : String)
    (v : String × Config) : List (String × (String × Config)) :=
  if m.any (fun kv => kv.1 == k) then
    m.map (fun kv => if kv.1 == k then (k, v) else kv)
  else m ++ [(k, v)]

/-- The directory-walk loop of ProdigyAdapter.load_prebaked_projects:
files rejected by try_load_prebaked are skipped; accepted documents go
through parse_prebaked, whose exceptions abort the whole walk. -/
def loadGo (acc : List (String × (String × Config))) :
    List FileContent → Except Err (List (String × (String × Config)))
  | [] => .ok acc
  | f :: rest =>
    match try_load_prebaked f with
    | none => loadGo acc rest
    | some d =>
      match parse_prebaked d with
      | .error e => .error e
      | .ok ncc => loadGo (dictInsert acc ncc.1 ncc.2) rest

/-- ProdigyAdapter.load_prebaked_projects over the files of a directory. -/
def load_prebaked_projects (files : List FileContent) :
    Except Err (List (String × (String × Config))) :=
  loadGo [] files

/-- Progeny.build_session_name: the identifier itself, or, when uniquify is
set, the identifier suffixed with the hash of a fresh random float (the
random draw is the environment parameter rnd). -/
def build_session_name (identifier : String) (uniquify : Bool) (rnd : Int) : String :=
  if uniquify then identifier ++ "-" ++ toString rnd else identifier

/-- Progeny.spin.  Mutations made before an exception stay in place, so the
error case carries the state as it stood when the exception was raised:
resolve the command and config, reject an identifier that already has an
instance (ValueError), allocate a port, derive the session name, merge the
port into the config, spawn the worker (its pid and liveness are the
environment parameters newPid and spawnAlive), and register the process.
No failure path releases the allocated port. -/
def spin (occ : Int → Bool) (newPid : Int) (spawnAlive : Bool) (rnd : Int)
    (prebakedMap : List (String × (String × Config)))
    (identifier : String) (command prebaked recipe : Option String)
    (recipe_args : Option (List String))
    (recipe_kwargs : Option (List (String × Value)))
    (config : Option Config) (uniquify : Bool) (st : RegState) :
    Except (Err × RegState) ((Int × String) × RegState) :=
  match get_command_and_config prebakedMap command prebaked recipe
      recipe_args recipe_kwargs config with
  | .error e => .error (e, st)
  | .ok _cmdcfg =>
    match already_has_instance identifier st with
    | .error e => .error (e, st)
    | .ok true => .error (.valueError, st)
    | .ok false =>
      match allocate_port occ st.pm with
      | .error e => .error (e, st)
      | .ok (port, pm2) =>
        let st1 : RegState := ⟨st.table, pm2⟩
        let session_name := build_session_name identifier uniquify rnd
        match register_process occ identifier (some session_name) port
            (.mp newPid spawnAlive) 8000000000 st1 with
        | .error e => .error (e, st1)
        | .ok st2 => .ok ((port, session_name), st2)

/-- An HTTP response relayed by the gateway: a status code and a body. -/
structure Resp where
  status : Nat
  body : String
deriving Repr, DecidableEq

/-- The request context the middleware fills in. -/
structure ReqCtx where
  port : Option Int
  session_name : Option String
  identifier : Option String
deriving Repr, DecidableEq

/-- The set_port_from_cookie middleware of cli_serve: read the
progeny_identifier cookie, look it up in the in-memory instances map
(missing or unknown identifiers yield the empty dict, hence port None and
session_name None), and stash the results on the request context. -/
def set_port_from_cookie (instances : List (String × (Int × String)))
    (cookie : Option String) : ReqCtx :=
  let details : Option (Int × String) :=
    match cookie with
    | some id => (instances.find? (fun kv => kv.1 == id)).map (·.2)
    | none => none
  ⟨details.map (·.1), details.map (·.2), cookie⟩

/-- The port piece of the URL fetch builds: f-string formatting renders the
int, and renders the value None as the four characters None. -/
def portPiece : Option Int → String
  | some p => toString p
  | none => "None"

/-- The numeric reading of a URL port component: defined exactly when the
component is a nonempty digit string. -/
def strPort? (s : String) : Option Int :=
  let cs := s.data
  if cs ≠ [] && cs.all (fun c => c.isDigit) then
    some (cs.foldl (fun n c => n * 10 + ((c.toNat : Int) - 48)) 0)
  else none

/-- Modelled from the library boundary: requests.get/post reject a URL
whose port component is not numeric (requests.exceptions.InvalidURL), and
otherwise reach the backend listening on that port, failing with a
ConnectionError when nothing answers there.  The backends parameter maps a
port to the response of whatever serves it. -/
def requests_fetch (backends : Int → Option Resp) (portStr : String) :
    Except Err Resp :=
  match strPort? portStr with
  | none => .error .invalidURL
  | some p =>
    match backends p with
    | some r => .ok r
    | none => .error .connectionError

/-- The fetch helper of cli_serve: format the backend URL with the port
taken from the request context and relay the request. -/
def fetch (backends : Int → Option Resp) (ctx : ReqCtx) (_path : String) :
    Except Err Resp :=
  requests_fetch backends (portPiece ctx.port)

/-- make_response(res, html): wrap the backend body in a fresh sanic HTML
response (status 200). -/
def html_res (r : Resp) : Resp := ⟨200, r.body⟩

/-- The get_root handler of cli_serve (GET /mylayerserver): append the
session query parameter only when the context carries a truthy session
name, then fetch the root document; an exception from fetch propagates out
of the handler unhandled. -/
def get_root (backends : Int → Option Resp) (ctx : ReqCtx) : Except Err Resp :=
  let path :=
    if strTruthy ctx.session_name then
      "/?session=" ++ ctx.session_name.getD ""
    else "/"
  (fetch backends ctx path).map html_res

/-! Concrete fixtures used by the theorems below. -/

/-- A live probe that finds every port free. -/
def probeAllFree : Int → Bool := fun _ => false

/-- A live probe that finds every port occupied. -/
def probeAllBusy : Int → Bool := fun _ => true

/-- A live probe that finds exactly port 8080 occupied. -/
def probe8080 : Int → Bool := fun p => p == 8080

/-- Sweep scenario: three registered workers (ages 0s, 50s and 120s at the
time of the sweep; ages live outside the table, which holds only the
default far-future expiry stamps). -/
def sweepSt : RegState :=
  ⟨[⟨"fresh", some "fresh", 8080, 11, 8000000000⟩,
    ⟨"mid", some "mid", 8081, 12, 8000000000⟩,
    ⟨"old", some "old", 8082, 13, 8000000000⟩],
   ⟨⟨8080, 8083⟩, [8080, 8081, 8082]⟩⟩

/-- Spin scenario: a stale row still claims port 8080 (its process died, so
the live probe reports the port free), and both ports of the range are in
the available set. -/
def spinSt : RegState :=
  ⟨[⟨"bob", some "bob", 8080, 42, 8000000000⟩], ⟨⟨8080, 8082⟩, [8080, 8081]⟩⟩

/-- The state spin leaves behind when registration fails in the spin
scenario: the table is untouched but port 8080 is gone from the available
set. -/
def spinStAfter : RegState :=
  ⟨[⟨"bob", some "bob", 8080, 42, 8000000000⟩], ⟨⟨8080, 8082⟩, [8081]⟩⟩

/-- A valid command-shape template file. -/
def fileGood : FileContent := .doc ⟨some "good", some "cmd", none, none, none, none⟩

/-- A second valid command-shape template file. -/
def fileGood2 : FileContent := .doc ⟨some "good2", some "cmd2", none, none, none, none⟩

/-- A recipe-shape template file with neither positional nor keyword
arguments. -/
def fileArgless : FileContent := .doc ⟨some "bad", none, some "textcat", none, none, none⟩

/-- A template file missing the name key. -/
def fileNoName : FileContent := .doc ⟨none, some "x", none, none, none, none⟩

/-- A template file carrying both the command shape and the recipe shape. -/
def fileBothShapes : FileContent :=
  .doc ⟨some "both", some "x", some "y", none, none, none⟩

/-- Registry scenario for the duplicate-registration claim: one record held
by alice. -/
def regW : RegState :=
  ⟨[⟨"alice", some "alice", 8080, 100, 8000000000⟩], ⟨⟨8080, 8090⟩, []⟩⟩

/-- PortManager scenario for the allocation claim: the full range is
available. -/
def wpm : PMState := ⟨⟨8080, 8083⟩, [8080, 8081, 8082]⟩

/-- The PortManager state after allocating 8081 from wpm under probe8080. -/
def wpm2 : PMState := ⟨⟨8080, 8083⟩, [8080, 8082]⟩

/-! Theorems. -/

/-- C5: for every registry state, a find or delete whose selector is empty,
with the unsafe flag false, is a no-op: find returns the empty list, delete
leaves the registry unchanged, and in both cases the guard warning is
logged. -/
theorem empty_selector_guard :
    ∀ st : RegState,
      find_process_from_registry false [] st = .ok ([], [warnMsg]) ∧
      delete_process_from_registry false [] st = .ok (st, [warnMsg]) := by
  intro st
  exact ⟨rfl, rfl⟩

/-- C2: sweeping with an older_than selector does not remove exactly the
over-age records as claimed: on a registry holding workers aged 0s, 50s and
120s, cleanup_running_processes with older_than 60 builds the SQL condition
quoting a column named older_than, which does not exist in the Process
table, so the SELECT raises an OperationalError and the sweep terminates
and deletes nothing at all. -/
theorem cleanup_older_than_crashes :
    find_process_from_registry false [("older_than", Value.i 60)] sweepSt =
      .error .operationalError ∧
    cleanup_running_processes probeAllFree false [("older_than", Value.i 60)] sweepSt =
      .error .operationalError := by
  exact ⟨rfl, rfl⟩

/-- C3: a spin that fails after port allocation does not return the port to
the available set.  Concretely: a stale row claims port 8080 while the live
probe reports it free, so spin for alice allocates 8080, spawns, and then
the registry INSERT fails on the UNIQUE port constraint; the error
propagates with 8080 still removed from the PortManager's available set
(only 8081 remains) and no record inserted. -/
theorem spin_no_port_rollback :
    8080 ∈ spinSt.pm.available_ports ∧
    spin probeAllFree 99 true 0 [] "alice" (some "cmd") none none none none none false
      spinSt = .error (.integrityError, spinStAfter) ∧
    8080 ∉ spinStAfter.pm.available_ports ∧
    spinStAfter.table = spinSt.table := by
  exact ⟨by decide, rfl, by decide, rfl⟩

/-- C8: loading templates from a directory is not always non-fatal: a
recipe-shape file with no positional and no keyword arguments slips past
ensure_unambiguity and makes parse_command's assert fail, aborting the
whole load (the valid files around it are lost).  The other malformed kinds
- invalid YAML, a missing name, both shapes present - are indeed skipped
while the valid files still load. -/
theorem load_prebaked_aborts_on_argless_recipe :
    load_prebaked_projects [fileGood, fileArgless, fileGood2] =
      .error .assertionError ∧
    load_prebaked_projects [fileGood, .badYaml, fileNoName, fileBothShapes, fileGood2] =
      .ok [("good", ("cmd", [])), ("good2", ("cmd2", []))] := by
  exact ⟨rfl, rfl⟩

/-- Helper: conds_maker drops every kwarg whose value is falsy, so an
all-falsy selector builds no conditions and binds no parameters. -/
theorem conds_maker_falsy (op : Op) :
    ∀ kwargs : List (String × Value),
      (∀ kv ∈ kwargs, pyTruthy kv.2 = false) → conds_maker op kwargs = ([], []) := by
  intro kwargs
  induction kwargs with
  | nil => intro _; rfl
  | cons kv rest ih =>
    intro h
    have h1 : pyTruthy kv.2 = false := h kv (List.mem_cons_self _ _)
    have h2 := ih (fun kv2 hm => h kv2 (List.mem_cons_of_mem _ hm))
    simp [conds_maker, h1, h2]

/-- C10: a selector field bound to a falsy value (port 0, empty identifier
or session name, older_than 0) is silently dropped by conds_maker, so a
selector whose values are all falsy behaves exactly like the empty
selector: with the unsafe flag false, find returns nothing with the guard
warning, delete leaves the registry unchanged, and the sweep terminates no
process and deletes no record; no record is ever matched by those falsy
values. -/
theorem falsy_selector_dropped :
    ∀ (occ : Int → Bool) (st : RegState) (kwargs : List (String × Value)),
      (∀ kv ∈ kwargs, pyTruthy kv.2 = false) →
      conds_maker .OR kwargs = ([], []) ∧
      find_process_from_registry false kwargs st = .ok ([], [warnMsg]) ∧
      delete_process_from_registry false kwargs st = .ok (st, [warnMsg]) ∧
      cleanup_running_processes occ false kwargs st =
        .ok (([], 0), ⟨st.table, update_available_ports occ st.pm⟩) := by
  intro occ st kwargs h
  have hcm := conds_maker_falsy .OR kwargs h
  refine ⟨hcm, ?_, ?_, ?_⟩
  · simp [find_process_from_registry, hcm, is_safe, warnMsg]
  · simp [delete_process_from_registry, hcm, is_safe, warnMsg]
  · simp [cleanup_running_processes, find_process_from_registry,
      delete_process_from_registry, hcm, is_safe, warnMsg]

theorem falsy_selector_dropped_witness :
    conds_maker .OR
        [("port", Value.i 0), ("identifier", Value.s ""), ("session_name", Value.s ""),
         ("older_than", Value.i 0)] = ([], []) ∧
    find_process_from_registry false
        [("port", Value.i 0), ("identifier", Value.s ""), ("session_name", Value.s ""),
         ("older_than", Value.i 0)] sweepSt = .ok ([], [warnMsg]) ∧
    delete_process_from_registry false
        [("port", Value.i 0), ("identifier", Value.s ""), ("session_name", Value.s ""),
         ("older_than", Value.i 0)] sweepSt = .ok (sweepSt, [warnMsg]) ∧
    cleanup_running_processes probeAllFree false
        [("port", Value.i 0), ("identifier", Value.s ""), ("session_name", Value.s ""),
         ("older_than", Value.i 0)] sweepSt =
      .ok (([], 0), ⟨sweepSt.table, update_available_ports probeAllFree sweepSt.pm⟩) :=
  falsy_selector_dropped probeAllFree sweepSt
    [("port", Value.i 0), ("identifier", Value.s ""), ("session_name", Value.s ""),
     ("older_than", Value.i 0)] (by decide)

/-- C9: a gateway request whose cookie identifier is missing, or unknown to
the instances map, does not resolve to a defined not-found response: the
middleware leaves port None on the request context, the root-document
handler then formats the backend URL with the literal characters None in
the port position, and the HTTP client rejects that URL (InvalidURL), an
exception the handler does not catch - whatever backends exist are never
consulted and no pinned status is produced. -/
theorem gateway_unknown_identifier_unpinned :
    ∀ (backends : Int → Option Resp) (instances : List (String × (Int × String)))
      (cookie : Option String),
      (∀ id, cookie = some id → instances.find? (fun kv => kv.1 == id) = none) →
      (set_port_from_cookie instances cookie).port = none ∧
      get_root backends (set_port_from_cookie instances cookie) = .error .invalidURL := by
  intro backends instances cookie h
  cases cookie with
  | none => exact ⟨rfl, rfl⟩
  | some id =>
    have hf := h id rfl
    constructor
    · simp [set_port_from_cookie, hf]
    · simp [get_root, set_port_from_cookie, hf, fetch, portPiece, requests_fetch,
        strTruthy, strPort?, Except.map]

theorem gateway_unknown_identifier_unpinned_witness :
    (set_port_from_cookie [("alice", (8080, "alice"))] (some "ghost")).port = none ∧
    get_root (fun _ => some ⟨200, "prodigy ui"⟩)
        (set_port_from_cookie [("alice", (8080, "alice"))] (some "ghost")) =
      .error .invalidURL :=
  gateway_unknown_identifier_unpinned (fun _ => some ⟨200, "prodigy ui"⟩)
    [("alice", (8080, "alice"))] (some "ghost")
    (fun _ he => by cases he; rfl)

/-- C6: validate maps every two-integer pair (a, b) with b > a + 1 to the
half-open range from a to b, and fails with the assertion error for every
invalid shape: a single (scalar) value, a reversed or zero-width pair (and
any pair with fewer than two ports), a tuple that does not have exactly two
elements, a range object with fewer than two representable ports, and a
range object whose start is not positive. -/
theorem validate_port_range_spec :
    (∀ a b : Int, b > a + 1 → validate_port_range (.seq [a, b]) = .ok ⟨a, b⟩) ∧
    (∀ x : Int, validate_port_range (.intValue x) = .error .assertionError) ∧
    (∀ a b : Int, b ≤ a + 1 → validate_port_range (.seq [a, b]) = .error .assertionError) ∧
    (∀ xs : List Int, xs.length ≠ 2 → validate_port_range (.seq xs) = .error .assertionError) ∧
    (∀ r : PyRange, pyRangeLen r ≤ 1 → validate_port_range (.rng r) = .error .assertionError) ∧
    (∀ r : PyRange, r.start ≤ 0 → validate_port_range (.rng r) = .error .assertionError) := by
  refine ⟨?_, ?_, ?_, ?_, ?_, ?_⟩
  · intro a b hab
    have hlen : pyRangeLen ⟨a, b⟩ > 1 := by
      show (b - a).toNat > 1
      omega
    simp [validate_port_range, hlen]
  · intro x
    rfl
  · intro a b hab
    have hlen : ¬ pyRangeLen ⟨a, b⟩ > 1 := by
      show ¬ (b - a).toNat > 1
      omega
    simp [validate_port_range, hlen]
  · intro xs hlen
    match xs, hlen with
    | [], _ => rfl
    | [_], _ => rfl
    | [_, _], h => exact absurd rfl h
    | _ :: _ :: _ :: _, _ => rfl
  · intro r hr
    have hlen : ¬ pyRangeLen r > 1 := by omega
    simp [validate_port_range, hlen]
  · intro r hr
    have hs : ¬ r.start > 0 := by omega
    simp [validate_port_range, hs]

theorem validate_port_range_spec_witness :
    validate_port_range (.seq [8080, 8090]) = .ok ⟨8080, 8090⟩ ∧
    validate_port_range (.intValue 10) = .error .assertionError ∧
    validate_port_range (.seq [10, 1]) = .error .assertionError ∧
    validate_port_range (.seq [5, 5]) = .error .assertionError ∧
    validate_port_range (.seq [1, 10, 11]) = .error .assertionError ∧
    validate_port_range (.rng ⟨1, 2⟩) = .error .assertionError ∧
    validate_port_range (.rng ⟨0, 10⟩) = .error .assertionError :=
  ⟨validate_port_range_spec.1 8080 8090 (by decide),
   validate_port_range_spec.2.1 10,
   validate_port_range_spec.2.2.1 10 1 (by decide),
   validate_port_range_spec.2.2.1 5 5 (by decide),
   validate_port_range_spec.2.2.2.1 [1, 10, 11] (by decide),
   validate_port_range_spec.2.2.2.2.1 ⟨1, 2⟩ (by decide),
   validate_port_range_spec.2.2.2.2.2 ⟨0, 10⟩ (by decide)⟩

/-- C7: command parsing at the spin entry point returns a literal command
verbatim when one is supplied alone, and fails with the ambiguity assert
whenever both a literal command and any recipe-side field are given, or
when a recipe is given with neither positional nor keyword arguments
(parse_command's assert rejects the argument-less recipe). -/
theorem get_command_and_config_spec :
    (∀ (pbm : List (String × (String × Config))) (c : String) (config : Option Config),
      c ≠ "" →
      get_command_and_config pbm (some c) none none none none config =
        .ok (some c, config.getD [])) ∧
    (∀ (pbm : List (String × (String × Config))) (c : String)
      (pre rec : Option String) (args : Option (List String))
      (kws : Option (List (String × Value))) (config : Option Config),
      c ≠ "" → (pre ≠ none ∨ rec ≠ none ∨ args ≠ none ∨ kws ≠ none) →
      get_command_and_config pbm (some c) pre rec args kws config =
        .error .assertionError) ∧
    (∀ (pbm : List (String × (String × Config))) (r : String)
      (args : Option (List String)) (kws : Option (List (String × Value)))
      (config : Option Config),
      r ≠ "" → argsTruthy args = false → kwTruthy kws = false →
      get_command_and_config pbm none none (some r) args kws config =
        .error .assertionError) := by
  refine ⟨?_, ?_, ?_⟩
  · intro pbm c config hc
    have hct : strTruthy (some c) = true := by simp [strTruthy, hc]
    cases config with
    | none => simp [get_command_and_config, hct, cfgTruthy]
    | some l =>
      cases l with
      | nil => simp [get_command_and_config, hct, cfgTruthy]
      | cons x xs => simp [get_command_and_config, hct, cfgTruthy]
  · intro pbm c pre rec args kws config hc hgiven
    have hct : strTruthy (some c) = true := by simp [strTruthy, hc]
    have hfalse : (pre.isNone && rec.isNone && args.isNone && kws.isNone) = false := by
      rcases hgiven with h | h | h | h <;>
        rcases Option.ne_none_iff_exists'.mp h with ⟨v, rfl⟩ <;> simp
    simp only [get_command_and_config, hct, if_true, hfalse]
    simp
  · intro pbm r args kws config hr hargs hkws
    have hrt : strTruthy (some r) = true := by simp [strTruthy, hr]
    simp [get_command_and_config, strTruthy, hrt, parse_command, hargs, hkws,
      Except.map, hr]

theorem get_command_and_config_spec_witness :
    get_command_and_config [] (some "textcat abc --loader jsonl myfile.jsonl")
        none none none none none =
      .ok (some "textcat abc --loader jsonl myfile.jsonl", []) ∧
    get_command_and_config [] (some "textcat abc") none (some "textcat")
        (some ["abc"]) none none =
      .error .assertionError ∧
    get_command_and_config [] none none (some "textcat") none none none =
      .error .assertionError :=
  ⟨get_command_and_config_spec.1 [] "textcat abc --loader jsonl myfile.jsonl" none
      (by decide),
   get_command_and_config_spec.2.1 [] "textcat abc" none (some "textcat")
      (some ["abc"]) none none (by decide) (Or.inr (Or.inl (by decide))),
   get_command_and_config_spec.2.2 [] "textcat" none none none (by decide) rfl rfl⟩

/-- C1: for every registry state, a register whose identifier, port or pid
is already held by a live record fails on the INSERT constraints with the
duplicate (integrity) error and inserts nothing; and once a delete on the
identifier has removed that identifier's record, a register with the same
identifier succeeds again (its port and pid being free among the remaining
records). -/
theorem register_process_duplicate_spec :
    ∀ (occ : Int → Bool) (st : RegState) (id : String) (sn : Option String)
      (port pid expiry : Int),
      ((∃ r ∈ st.table, r.identifier = id ∨ r.port = port ∨ r.pid = pid) →
        register_process occ id sn port (.raw pid) expiry st =
          .error .integrityError) ∧
      (id ≠ "" →
        (∀ r ∈ st.table, r.identifier ≠ id → r.port ≠ port ∧ r.pid ≠ pid) →
        delete_process_from_registry false [("identifier", Value.s id)] st =
          .ok (⟨st.table.filter (fun r => !(r.identifier == id)), st.pm⟩, []) ∧
        ∃ st3,
          register_process occ id sn port (.raw pid) expiry
            ⟨st.table.filter (fun r => !(r.identifier == id)), st.pm⟩ = .ok st3) := by
  intro occ st id sn port pid expiry
  constructor
  · rintro ⟨r, hr, hcase⟩
    have hany : (st.table.any (fun r =>
        r.identifier == id || r.port == port || r.pid == pid)) = true := by
      refine List.any_eq_true.mpr ⟨r, hr, ?_⟩
      rcases hcase with h | h | h <;> simp [h]
    simp [register_process, hany]
  · intro hid hfresh
    have htr : pyTruthy (Value.s id) = true := by simp [pyTruthy, hid]
    constructor
    · simp [delete_process_from_registry, conds_maker, htr, is_safe, runDelete,
        tableColumns, rowMatches, colValue, valEq, Except.map]
    · have hany : ((st.table.filter (fun r => !(r.identifier == id))).any (fun r =>
          r.identifier == id || r.port == port || r.pid == pid)) = false := by
        rw [List.any_eq_false]
        intro r hr
        obtain ⟨hmem, hneq⟩ := List.mem_filter.mp hr
        have hne : r.identifier ≠ id := by simpa using hneq
        obtain ⟨hp, hpid⟩ := hfresh r hmem hne
        simp [hne, hp, hpid]
      exact ⟨⟨st.table.filter (fun r => !(r.identifier == id)) ++
          [⟨id, sn, port, pid, expiry⟩], update_available_ports occ st.pm⟩,
        by simp [register_process, hany]⟩

theorem register_process_duplicate_spec_witness :
    register_process probeAllFree "alice" none 8081 (.raw 100) 8000000000 regW =
      .error .integrityError ∧
    delete_process_from_registry false [("identifier", Value.s "alice")] regW =
      .ok (⟨regW.table.filter (fun r => !(r.identifier == "alice")), regW.pm⟩, []) ∧
    ∃ st3,
      register_process probeAllFree "alice" none 8081 (.raw 100) 8000000000
        ⟨regW.table.filter (fun r => !(r.identifier == "alice")), regW.pm⟩ =
        .ok st3 :=
  have h := register_process_duplicate_spec probeAllFree regW "alice" none
    8081 100 8000000000
  have h2 := h.2 (by decide) (by decide)
  ⟨h.1 ⟨⟨"alice", some "alice", 8080, 100, 8000000000⟩, by decide, by decide⟩,
   h2.1, h2.2⟩

/-- Helper: when the allocation scan succeeds, the returned port is the
first live-probed-free port of the scan order, it is free, it belongs to
the scanned list and to the available set, and the new available set is
the old one with that port removed. -/
theorem allocGo_ok_spec (occ : Int → Bool) (avail : List Int) :
    ∀ (ports : List Int) (p : Int) (av : List Int),
      allocGo occ avail ports = .ok (p, av) →
      (ports.filter (fun q => !occ q)).head? = some p ∧
      occ p = false ∧ p ∈ ports ∧ p ∈ avail ∧ av = avail.erase p := by
  intro ports
  induction ports with
  | nil =>
    intro p av h
    simp [allocGo] at h
  | cons q rest ih =>
    intro p av h
    by_cases hq : occ q
    · have h2 : allocGo occ avail rest = .ok (p, av) := by
        simpa [allocGo, hq] using h
      obtain ⟨g1, g2, g3, g4, g5⟩ := ih p av h2
      refine ⟨?_, g2, List.mem_cons_of_mem _ g3, g4, g5⟩
      rw [List.filter_cons]
      simp [hq, g1]
    · by_cases hm : q ∈ avail
      · have h2 : q = p ∧ avail.erase q = av := by
          have h3 := h
          simp [allocGo, hq, hm] at h3
          exact h3
        obtain ⟨hqp, hav⟩ := h2
        subst hqp
        refine ⟨?_, by simpa using hq, List.mem_cons_self _ _, hm, hav.symm⟩
        rw [List.filter_cons]
        simp [hq]
      · simp [allocGo, hq, hm] at h

/-- Helper: a fully occupied scan list exhausts the loop, reaching the
RuntimeError branch. -/
theorem allocGo_all_busy (occ : Int → Bool) (avail : List Int) :
    ∀ ports : List Int, (∀ q ∈ ports, occ q = true) →
      allocGo occ avail ports = .error .runtimeNoPorts := by
  intro ports
  induction ports with
  | nil => intro _; rfl
  | cons q rest ih =>
    intro h
    have hq : occ q = true := h q (List.mem_cons_self _ _)
    simp [allocGo, hq, ih (fun x hx => h x (List.mem_cons_of_mem _ hx))]

/-- Helper: the facts a successful allocate_port establishes. -/
theorem allocate_port_ok (occ : Int → Bool) (pm : PMState) (p : Int) (pm2 : PMState)
    (h : allocate_port occ pm = .ok (p, pm2)) :
    ((rangeList pm.port_range).filter (fun q => !occ q)).head? = some p ∧
    occ p = false ∧ p ∈ rangeList pm.port_range ∧ p ∈ pm.available_ports ∧
    pm2 = ⟨pm.port_range, pm.available_ports.erase p⟩ := by
  cases hga : allocGo occ pm.available_ports (rangeList pm.port_range) with
  | error e =>
    rw [allocate_port, hga] at h
    simp [Except.map] at h
  | ok pa =>
    rw [allocate_port, hga] at h
    simp [Except.map] at h
    obtain ⟨hp, hpm⟩ := h
    obtain ⟨g1, g2, g3, g4, g5⟩ := allocGo_ok_spec occ pm.available_ports _ pa.1 pa.2 hga
    subst hp
    refine ⟨g1, g2, g3, g4, ?_⟩
    rw [← hpm, g5]

/-- C4: allocate scans the configured range in ascending order and, when it
returns, returns the first port the live probe reports free, removing it
from the available set; the returned port is never outside the range and
never occupied; on a duplicate-free available set, a second allocation
performed after the first (under any probe, with no intervening release)
can never return the same port again; and when every port of the range is
occupied the call fails with the no-ports-available error. -/
theorem allocate_port_spec :
    ∀ (occ : Int → Bool) (pm : PMState),
      (∀ p pm2, pm.available_ports.Nodup →
        allocate_port occ pm = .ok (p, pm2) →
        ((rangeList pm.port_range).filter (fun q => !occ q)).head? = some p ∧
        p ∈ rangeList pm.port_range ∧
        occ p = false ∧
        p ∈ pm.available_ports ∧
        pm2 = ⟨pm.port_range, pm.available_ports.erase p⟩ ∧
        p ∉ pm2.available_ports ∧
        (∀ (occ2 : Int → Bool) (p2 : Int) (pm3 : PMState),
          allocate_port occ2 pm2 = .ok (p2, pm3) → p2 ≠ p)) ∧
      ((∀ q ∈ rangeList pm.port_range, occ q = true) →
        allocate_port occ pm = .error .runtimeNoPorts) := by
  intro occ pm
  constructor
  · intro p pm2 hnd h
    obtain ⟨g1, g2, g3, g4, g5⟩ := allocate_port_ok occ pm p pm2 h
    have hmem2 : pm2.available_ports = pm.available_ports.erase p := by rw [g5]
    refine ⟨g1, g3, g2, g4, g5, ?_, ?_⟩
    · intro hin
      rw [hmem2] at hin
      exact ((List.Nodup.mem_erase_iff hnd).mp hin).1 rfl
    · intro occ2 p2 pm3 h2
      obtain ⟨_, _, _, k4, _⟩ := allocate_port_ok occ2 pm2 p2 pm3 h2
      rw [hmem2] at k4
      exact ((List.Nodup.mem_erase_iff hnd).mp k4).1
  · intro hall
    rw [allocate_port, allocGo_all_busy occ pm.available_ports _ hall]
    rfl

theorem allocate_port_spec_witness :
    (((rangeList wpm.port_range).filter (fun q => !probe8080 q)).head? = some 8081 ∧
      8081 ∈ rangeList wpm.port_range ∧
      probe8080 8081 = false ∧
      8081 ∈ wpm.available_ports ∧
      wpm2 = ⟨wpm.port_range, wpm.available_ports.erase 8081⟩ ∧
      8081 ∉ wpm2.available_ports ∧
      (∀ (occ2 : Int → Bool) (p2 : Int) (pm3 : PMState),
        allocate_port occ2 wpm2 = .ok (p2, pm3) → p2 ≠ 8081)) ∧
    allocate_port probeAllBusy wpm = .error .runtimeNoPorts :=
  ⟨(allocate_port_spec probe8080 wpm).1 8081 wpm2 (by decide) (by rfl),
   (allocate_port_spec probeAllBusy wpm).2 (by decide)⟩

end ProgenyCore
